import Mathlib

/-!
Shallow embedding of src/agency_swarm/util/settings_manager.py.

The module defines a process-wide singleton `SettingsManager` with a
non-re-entrant in-process mutex (`self._file_lock`, a `threading.Lock`),
an OS-level advisory file-lock acquisition loop with a bounded retry
count, and CRUD operations (`load_settings`, `save_settings`,
`update_settings`, `delete_settings`) over a JSON array file.

Modelling choices:
* A file system is a finite association list from path to `FileData`.
  `FileData.json l` models a file holding the serialized JSON array of
  the record list `l` (exactly what `json.dump` writes and `json.load`
  parses back); `FileData.blank` models an empty file (as produced by
  opening a file in write mode, which truncates it); `FileData.malformed`
  models any other content on which `json.load` raises `JSONDecodeError`.
* A `Record` models one JSON object: `Record.id` is the value that
  `setting.get` returns for the key id (`none` when the key is absent,
  matching the Python `None`); the remaining fields are uninterpreted.
* Python exceptions are modelled by `PyErr`; `PyErr.wrapped m c` models
  `Exception(f"m: \x7bstr(c)\x7d")` (an error whose message wraps the cause),
  `PyErr.exception m` a bare `Exception(m)`, `PyErr.nameError v` the
  `NameError` raised when the local variable `v` is referenced before
  assignment, and `PyErr.oserror m` an underlying OS-level error.
* The non-re-entrant process mutex is modelled by the `mutexHeld`
  argument of each operation: entering `with self._file_lock` when the
  calling thread already holds the mutex blocks forever, which the model
  returns as `Res.deadlock`.
* OS nondeterminism (contention on the advisory lock, I/O failures of
  `makedirs`, the temp-file write, and `os.replace`) is injected through
  an `Env` record; a benign environment makes every OS call succeed.
-/

/-- One JSON object of the settings array.  `id` is the value returned by
`setting.get` for the key id (`none` models both an absent key and an
explicit JSON null, exactly as Python `dict.get` reports them); `fields`
models the remaining, uninterpreted key-value pairs. -/
structure Record where
  id : Option String
  fields : List (String × String)
  deriving DecidableEq

/-- Content of one file on disk, at the granularity the program observes:
`json l` is the serialized JSON array of `l` (what `json.dump` writes and
`json.load` parses back), `blank` an empty file (produced by opening in
write mode, which truncates), `malformed` any other content on which
`json.load` raises `JSONDecodeError`. -/
inductive FileData where
  | json (records : List Record)
  | blank
  | malformed
  deriving DecidableEq

/-- The file system: a finite map from path to file content, as an
association list.  A missing key models a path that does not exist. -/
abbrev Fs := List (String × FileData)

def fsGet : Fs → String → Option FileData
  | [], _ => none
  | (q, d) :: rest, p => if q = p then some d else fsGet rest p

def fsSet : Fs → String → FileData → Fs
  | [], p, d => [(p, d)]
  | (q, e) :: rest, p, d => if q = p then (p, d) :: rest else (q, e) :: fsSet rest p d

def fsRemove : Fs → String → Fs
  | [], _ => []
  | (q, e) :: rest, p => if q = p then fsRemove rest p else (q, e) :: fsRemove rest p

/-- Python exception values, at the granularity the module distinguishes:
`wrapped m c` is `Exception(f"m: \x7bstr(c)\x7d")` (message wraps the cause),
`exception m` a bare `Exception(m)`, `nameError v` the `NameError` for an
unassigned local variable `v`, `oserror m` an underlying OS error. -/
inductive PyErr where
  | nameError (var : String)
  | exception (msg : String)
  | wrapped (msg : String) (cause : PyErr)
  | oserror (msg : String)
  deriving DecidableEq

/-- Outcome of one operation: normal return, raised exception, or
blocking forever on the process mutex (`with self._file_lock` when the
same thread already holds the non-re-entrant `threading.Lock`). -/
inductive Res (α : Type) where
  | ok (val : α)
  | err (e : PyErr)
  | deadlock
  deriving DecidableEq

/-- Result of one public operation: its outcome, the file system after
it, and bookkeeping of the OS file-lock protocol (open-and-lock attempts
made, locks successfully taken, locks still held at return). -/
structure OpOut (α : Type) where
  res : Res α
  fs : Fs
  lockAttempts : Nat
  locksTaken : Nat
  locksHeld : Nat
  deriving DecidableEq

/-- `MAX_RETRIES` of `SettingsManager` (settings_manager.py line 24). -/
def MAX_RETRIES : Nat := 5

/-- `RETRY_DELAY` of `SettingsManager` (line 25), in milliseconds. -/
def RETRY_DELAY_MS : Nat := 100

/-- Outcome of one iteration of the `_acquire_file_lock` retry loop:
the open-plus-lock attempt succeeds, fails because another process holds
the advisory lock (the `IOError` of `msvcrt.locking` with `LK_NBLCK`,
carrying the OS message), or raises some other error (modelled as the
`open` call itself failing, so the attempt has no file-system effect). -/
inductive AttemptResult where
  | success
  | contended (msg : String)
  | oserror (msg : String)

/-- Result of `_acquire_file_lock`: success or a raised error, together
with the number of attempts made and of `time.sleep(RETRY_DELAY)` calls. -/
inductive AcqRes where
  | ok (attempts sleeps : Nat)
  | fail (e : PyErr) (attempts sleeps : Nat)
  deriving DecidableEq

def lockFailMsg : String := "Failed to acquire file lock after 5 retries"

/-- The body of `_acquire_file_lock` (lines 56-88).  The Python loop
`while retries < MAX_RETRIES` is driven here by the remaining iteration
count (`remaining + retries = MAX_RETRIES` at every call from the entry
point).  Each iteration opens the file (mode w truncates the target,
creating it if absent) and tries to take the advisory lock:
`success` returns the handle; `contended` closes, sleeps and retries
(lines 69-76); any other error re-raises wrapped once
`retries >= MAX_RETRIES - 1` (lines 80-86) and otherwise sleeps and
retries.  Falling out of the loop raises the bare exception of line 88,
whose message does not include the underlying error. -/
def acquireGo (oracle : Nat → AttemptResult) (write : Bool) (p : String) :
    Nat → Nat → Nat → Fs → AcqRes × Fs
  | 0, retries, sleeps, fs => (AcqRes.fail (PyErr.exception lockFailMsg) retries sleeps, fs)
  | Nat.succ remaining, retries, sleeps, fs =>
    match oracle retries with
    | AttemptResult.success =>
      (AcqRes.ok (retries + 1) sleeps, if write then fsSet fs p FileData.blank else fs)
    | AttemptResult.contended _ =>
      acquireGo oracle write p remaining (retries + 1) (sleeps + 1)
        (if write then fsSet fs p FileData.blank else fs)
    | AttemptResult.oserror m =>
      if MAX_RETRIES - 1 ≤ retries then
        (AcqRes.fail (PyErr.wrapped lockFailMsg (PyErr.oserror m)) (retries + 1) sleeps, fs)
      else
        acquireGo oracle write p remaining (retries + 1) (sleeps + 1) fs

/-- `_acquire_file_lock(file_path, mode)` (lines 41-88), entered with
`retries = 0`. -/
def acquireFileLock (oracle : Nat → AttemptResult) (write : Bool) (p : String) (fs : Fs) :
    AcqRes × Fs :=
  acquireGo oracle write p MAX_RETRIES 0 0 fs

/-- OS-behaviour injection for one run: the per-attempt outcome of the
file-lock protocol and whether `os.makedirs`, the temp-file write
(`json.dump`), and `os.replace` fail, with the OS messages of the
injected failures. -/
structure Env where
  oracle : Nat → AttemptResult
  makedirsFails : Bool
  tmpWriteFails : Bool
  tmpWriteMsg : String
  replaceFails : Bool
  replaceMsg : String

def loadFailMsg : String := "Failed to load settings"
def saveFailMsg : String := "Failed to save settings"
def updateFailMsg : String := "Failed to update settings"
def deleteFailMsg : String := "Failed to delete settings"

/-- `load_settings(settings_path)` (lines 107-133).  `mutexHeld` says
whether the calling thread already holds the process mutex: if so, the
`with self._file_lock` at line 117 blocks forever.  Otherwise: a missing
path returns the empty list with no lock attempt (lines 118-119); else
the file is opened read-only under the advisory lock, `json.load` either
parses the array or raises `JSONDecodeError` (empty and malformed files),
which is recovered to the empty list after releasing the lock
(lines 126-129); a lock-acquisition failure is re-raised wrapped by the
generic handler of lines 130-133. -/
def loadSettings (env : Env) (mutexHeld : Bool) (fs : Fs) (p : String) :
    OpOut (List Record) :=
  if mutexHeld then ⟨Res.deadlock, fs, 0, 0, 0⟩
  else
    match fsGet fs p with
    | none => ⟨Res.ok [], fs, 0, 0, 0⟩
    | some content =>
      match acquireFileLock env.oracle false p fs with
      | (AcqRes.ok a _, fs1) =>
        match content with
        | FileData.json l => ⟨Res.ok l, fs1, a, 1, 0⟩
        | FileData.blank => ⟨Res.ok [], fs1, a, 1, 0⟩
        | FileData.malformed => ⟨Res.ok [], fs1, a, 1, 0⟩
      | (AcqRes.fail e a _, fs1) =>
        ⟨Res.err (PyErr.wrapped loadFailMsg e), fs1, a, 0, 0⟩

/-- `os.path.dirname` for POSIX paths: the text up to the last slash,
with trailing slashes stripped unless the head is all slashes; a path
with no slash has dirname empty. -/
def dirname (p : String) : String :=
  let head := (p.toList.reverse.dropWhile (fun c => c != '/')).reverse
  if head ≠ [] ∧ ¬ (head.all (fun c => c == '/')) then
    String.mk ((head.reverse.dropWhile (fun c => c == '/')).reverse)
  else String.mk head

/-- `save_settings(settings_path, settings)` (lines 135-164).  Under the
process mutex: `os.makedirs(os.path.dirname(settings_path))` (line 147)
raises when the dirname is empty (a bare filename) or when the injected
mkdir failure fires - and in that case the cleanup branch of lines
159-164 evaluates `os.path.exists(temp_path)` before `temp_path` was
ever assigned (it is assigned at line 150, after `makedirs`), so the
error that propagates is `NameError: name temp_path is not defined`, not
the wrapped cause.  Otherwise the serialized array is written to
`settings_path + ".tmp"` (a failing write removes the just-created temp
file and re-raises wrapped); the advisory lock is then taken on the
target opened in mode w - each open truncates the target to an empty
file - and `os.replace` atomically moves the temp file onto the target.
A failure of `os.replace` or of the lock acquisition releases the lock
if held, removes the temp file, and re-raises wrapped (lines 159-164). -/
def saveSettings (env : Env) (mutexHeld : Bool) (fs : Fs) (p : String)
    (records : List Record) : OpOut Unit :=
  if mutexHeld then ⟨Res.deadlock, fs, 0, 0, 0⟩
  else
    if dirname p = "" ∨ env.makedirsFails = true then
      ⟨Res.err (PyErr.nameError "temp_path"), fs, 0, 0, 0⟩
    else
      if env.tmpWriteFails = true then
        ⟨Res.err (PyErr.wrapped saveFailMsg (PyErr.oserror env.tmpWriteMsg)),
          fsRemove (fsSet fs (p ++ ".tmp") FileData.blank) (p ++ ".tmp"), 0, 0, 0⟩
      else
        match acquireFileLock env.oracle true p
            (fsSet fs (p ++ ".tmp") (FileData.json records)) with
        | (AcqRes.ok a _, fs2) =>
          if env.replaceFails = true then
            ⟨Res.err (PyErr.wrapped saveFailMsg (PyErr.oserror env.replaceMsg)),
              fsRemove fs2 (p ++ ".tmp"), a, 1, 0⟩
          else
            ⟨Res.ok (), fsSet (fsRemove fs2 (p ++ ".tmp")) p (FileData.json records),
              a, 1, 0⟩
        | (AcqRes.fail e a _, fs2) =>
          ⟨Res.err (PyErr.wrapped saveFailMsg e), fsRemove fs2 (p ++ ".tmp"), a, 0, 0⟩

/-- The record-list transformation of `update_settings` (lines 180-189):
replace the first record whose `get` of id equals `assistant_id` in
place (the indexed loop with `break`), append `new_settings` when no
record matches. -/
def updateList : List Record → Option String → Record → List Record
  | [], _, newRec => [newRec]
  | s :: rest, aid, newRec =>
    if s.id = aid then newRec :: rest else s :: updateList rest aid newRec

/-- The record-list transformation of `delete_settings` (line 207): the
comprehension keeping every record whose `get` of id differs from
`assistant_id`. -/
def deleteList (l : List Record) (aid : Option String) : List Record :=
  l.filter (fun s => decide (s.id ≠ aid))

/-- The body of `update_settings` under its mutex (lines 176-194):
load, transform, save, wrapping any raised error with the message
`Failed to update settings`.  `nestedHeld` is the mutex state the nested
`load_settings` and `save_settings` calls observe: in the code it is
`true` (the caller already holds the non-re-entrant lock). -/
def updateSettingsBody (env : Env) (nestedHeld : Bool) (fs : Fs) (p : String)
    (aid : Option String) (newRec : Record) : OpOut Unit :=
  match loadSettings env nestedHeld fs p with
  | ⟨Res.deadlock, fs1, a1, t1, h1⟩ => ⟨Res.deadlock, fs1, a1, t1, h1⟩
  | ⟨Res.err e, fs1, a1, t1, h1⟩ => ⟨Res.err (PyErr.wrapped updateFailMsg e), fs1, a1, t1, h1⟩
  | ⟨Res.ok settings, fs1, a1, t1, h1⟩ =>
    match saveSettings env nestedHeld fs1 p (updateList settings aid newRec) with
    | ⟨Res.deadlock, fs2, a2, t2, h2⟩ => ⟨Res.deadlock, fs2, a1 + a2, t1 + t2, h1 + h2⟩
    | ⟨Res.err e, fs2, a2, t2, h2⟩ =>
      ⟨Res.err (PyErr.wrapped updateFailMsg e), fs2, a1 + a2, t1 + t2, h1 + h2⟩
    | ⟨Res.ok _, fs2, a2, t2, h2⟩ => ⟨Res.ok (), fs2, a1 + a2, t1 + t2, h1 + h2⟩

/-- `update_settings(settings_path, assistant_id, new_settings)`
(lines 166-194): takes the process mutex, then runs the body, whose
nested `load_settings` call sees the mutex already held. -/
def updateSettings (env : Env) (mutexHeld : Bool) (fs : Fs) (p : String)
    (aid : Option String) (newRec : Record) : OpOut Unit :=
  if mutexHeld then ⟨Res.deadlock, fs, 0, 0, 0⟩
  else updateSettingsBody env true fs p aid newRec

/-- The body of `update_settings` executed as it would be were the
process mutex re-entrant: identical to `updateSettingsBody` as run by
`updateSettings` except that the nested `load_settings` and
`save_settings` do not block on the already-held mutex.  Used to state
the record-level semantics the operation applies between its load and
its save. -/
def updateSettingsReentrant (env : Env) (fs : Fs) (p : String)
    (aid : Option String) (newRec : Record) : OpOut Unit :=
  updateSettingsBody env false fs p aid newRec

/-- The body of `delete_settings` under its mutex (lines 205-210):
load, filter, save, wrapping any raised error with the message
`Failed to delete settings`. -/
def deleteSettingsBody (env : Env) (nestedHeld : Bool) (fs : Fs) (p : String)
    (aid : Option String) : OpOut Unit :=
  match loadSettings env nestedHeld fs p with
  | ⟨Res.deadlock, fs1, a1, t1, h1⟩ => ⟨Res.deadlock, fs1, a1, t1, h1⟩
  | ⟨Res.err e, fs1, a1, t1, h1⟩ => ⟨Res.err (PyErr.wrapped deleteFailMsg e), fs1, a1, t1, h1⟩
  | ⟨Res.ok settings, fs1, a1, t1, h1⟩ =>
    match saveSettings env nestedHeld fs1 p (deleteList settings aid) with
    | ⟨Res.deadlock, fs2, a2, t2, h2⟩ => ⟨Res.deadlock, fs2, a1 + a2, t1 + t2, h1 + h2⟩
    | ⟨Res.err e, fs2, a2, t2, h2⟩ =>
      ⟨Res.err (PyErr.wrapped deleteFailMsg e), fs2, a1 + a2, t1 + t2, h1 + h2⟩
    | ⟨Res.ok _, fs2, a2, t2, h2⟩ => ⟨Res.ok (), fs2, a1 + a2, t1 + t2, h1 + h2⟩

/-- `delete_settings(settings_path, assistant_id)` (lines 196-210):
takes the process mutex, then runs the body, whose nested
`load_settings` call sees the mutex already held. -/
def deleteSettings (env : Env) (mutexHeld : Bool) (fs : Fs) (p : String)
    (aid : Option String) : OpOut Unit :=
  if mutexHeld then ⟨Res.deadlock, fs, 0, 0, 0⟩
  else deleteSettingsBody env true fs p aid

/-- The body of `delete_settings` with a re-entrant mutex; compare
`updateSettingsReentrant`. -/
def deleteSettingsReentrant (env : Env) (fs : Fs) (p : String)
    (aid : Option String) : OpOut Unit :=
  deleteSettingsBody env false fs p aid

/-- Recognizer for a lock-exhaustion error that wraps its OS cause
(the raise of line 84, as opposed to the bare raise of line 88). -/
def isLockWrapped : PyErr → Bool
  | PyErr.wrapped m (PyErr.oserror _) => m == lockFailMsg
  | _ => false

/-- Recognizer for an error of the form raised by `save_settings`
(line 164): a message `Failed to save settings` wrapping the cause. -/
def isSaveWrapped : PyErr → Bool
  | PyErr.wrapped m _ => m == saveFailMsg
  | _ => false

/-- An environment in which every OS call succeeds and the advisory lock
is free on every attempt. -/
def benignEnv : Env :=
  ⟨fun _ => AttemptResult.success, false, false, "", false, ""⟩

/-- Benign environment except that `os.replace` fails. -/
def envReplaceFail : Env :=
  ⟨fun _ => AttemptResult.success, false, false, "", true, "Invalid cross-device link"⟩

/-- Benign environment except that the temp-file write fails. -/
def envTmpFail : Env :=
  ⟨fun _ => AttemptResult.success, false, true, "No space left on device", false, ""⟩

/-- An advisory lock held by another process on every attempt. -/
def contendedOracle : Nat → AttemptResult :=
  fun _ => AttemptResult.contended "Resource temporarily unavailable"

/-- Every open-plus-lock attempt raises a non-contention OS error. -/
def oserrorOracle : Nat → AttemptResult :=
  fun _ => AttemptResult.oserror "Permission denied"

def recA : Record := ⟨some "a", [("v", "1")]⟩
def recA2 : Record := ⟨some "a", [("v", "2")]⟩
def recB : Record := ⟨some "b", [("v", "5")]⟩
def recC : Record := ⟨some "c", []⟩
def recNoId : Record := ⟨none, [("k", "x")]⟩

def fsAB : Fs := [("d/s.json", FileData.json [recA, recB])]
def fsMixed : Fs := [("d/m.json", FileData.json [recNoId, recB])]

theorem fsGet_fsSet_self (fs : Fs) (p : String) (d : FileData) :
    fsGet (fsSet fs p d) p = some d := by
  induction fs with
  | nil => simp [fsSet, fsGet]
  | cons hd rest ih =>
    obtain ⟨q, e⟩ := hd
    by_cases h : q = p
    · simp [fsSet, fsGet, h]
    · simp [fsSet, fsGet, h, ih]

theorem fsGet_fsSet_ne (fs : Fs) (p q : String) (d : FileData) (h : q ≠ p) :
    fsGet (fsSet fs p d) q = fsGet fs q := by
  have h2 : ¬ p = q := fun hh => h hh.symm
  induction fs with
  | nil => simp [fsSet, fsGet, h2]
  | cons hd rest ih =>
    obtain ⟨r, e⟩ := hd
    by_cases hr : r = p
    · subst hr
      simp [fsSet, fsGet, h2]
    · simp [fsSet, fsGet, hr, ih]

theorem fsGet_fsRemove_self (fs : Fs) (p : String) :
    fsGet (fsRemove fs p) p = none := by
  induction fs with
  | nil => simp [fsRemove, fsGet]
  | cons hd rest ih =>
    obtain ⟨q, e⟩ := hd
    by_cases h : q = p
    · simp [fsRemove, h, ih]
    · simp [fsRemove, fsGet, h, ih]

theorem fsGet_fsRemove_ne (fs : Fs) (p q : String) (h : q ≠ p) :
    fsGet (fsRemove fs p) q = fsGet fs q := by
  have h2 : ¬ p = q := fun hh => h hh.symm
  induction fs with
  | nil => simp [fsRemove, fsGet]
  | cons hd rest ih =>
    obtain ⟨r, e⟩ := hd
    by_cases hr : r = p
    · subst hr
      simp [fsRemove, fsGet, h2, ih]
    · simp [fsRemove, fsGet, hr, ih]

theorem string_ne_append_tmp (p : String) : p ≠ p ++ ".tmp" := by
  intro h
  have h2 : p.length = (p ++ ".tmp").length := congrArg String.length h
  rw [String.length_append] at h2
  have h3 : (".tmp" : String).length = 4 := rfl
  omega

theorem acquireGo_read_fs (oracle : Nat → AttemptResult) (p : String) :
    ∀ rem ret sl fs, (acquireGo oracle false p rem ret sl fs).2 = fs := by
  intro rem
  induction rem with
  | zero => intro ret sl fs; rfl
  | succ n ih =>
    intro ret sl fs
    cases h : oracle ret with
    | success => simp [acquireGo, h]
    | contended m => simp [acquireGo, h, ih]
    | oserror m =>
      by_cases hr : MAX_RETRIES - 1 ≤ ret
      · simp [acquireGo, h, hr]
      · simp [acquireGo, h, hr, ih]

theorem acquireGo_write_fsGet (oracle : Nat → AttemptResult) (p : String) :
    ∀ rem ret sl fs, fsGet ((acquireGo oracle true p rem ret sl fs).2) p = fsGet fs p ∨
      fsGet ((acquireGo oracle true p rem ret sl fs).2) p = some FileData.blank := by
  intro rem
  induction rem with
  | zero => intro ret sl fs; left; rfl
  | succ n ih =>
    intro ret sl fs
    cases h : oracle ret with
    | success => right; simp [acquireGo, h, fsGet_fsSet_self]
    | contended m =>
      rcases ih (ret + 1) (sl + 1) (fsSet fs p FileData.blank) with h2 | h2
      · right
        simp only [acquireGo, h, if_true]
        rw [h2, fsGet_fsSet_self]
      · right
        simp only [acquireGo, h, if_true]
        exact h2
    | oserror m =>
      by_cases hr : MAX_RETRIES - 1 ≤ ret
      · left; simp [acquireGo, h, hr]
      · rcases ih (ret + 1) (sl + 1) fs with h2 | h2
        · left; simp [acquireGo, h, hr, h2]
        · right; simp [acquireGo, h, hr, h2]

theorem acquireGo_write_ok_blank (oracle : Nat → AttemptResult) (p : String) :
    ∀ rem ret sl fs a s, (acquireGo oracle true p rem ret sl fs).1 = AcqRes.ok a s →
      fsGet ((acquireGo oracle true p rem ret sl fs).2) p = some FileData.blank := by
  intro rem
  induction rem with
  | zero =>
    intro ret sl fs a s h
    simp [acquireGo] at h
  | succ n ih =>
    intro ret sl fs a s h
    cases ho : oracle ret with
    | success => simp [acquireGo, ho, fsGet_fsSet_self]
    | contended m =>
      simp only [acquireGo, ho, if_true] at h ⊢
      exact ih (ret + 1) (sl + 1) (fsSet fs p FileData.blank) a s h
    | oserror m =>
      by_cases hr : MAX_RETRIES - 1 ≤ ret
      · simp [acquireGo, ho, hr] at h
      · simp only [acquireGo, ho, if_neg hr] at h ⊢
        exact ih (ret + 1) (sl + 1) fs a s h

theorem acquireGo_write_fsGet_ne (oracle : Nat → AttemptResult) (p q : String)
    (hq : q ≠ p) :
    ∀ rem ret sl fs, fsGet ((acquireGo oracle true p rem ret sl fs).2) q = fsGet fs q := by
  intro rem
  induction rem with
  | zero => intro ret sl fs; rfl
  | succ n ih =>
    intro ret sl fs
    cases h : oracle ret with
    | success => simp [acquireGo, h, fsGet_fsSet_ne _ _ _ _ hq]
    | contended m =>
      simp only [acquireGo, h, if_true]
      rw [ih (ret + 1) (sl + 1) (fsSet fs p FileData.blank)]
      exact fsGet_fsSet_ne _ _ _ _ hq
    | oserror m =>
      by_cases hr : MAX_RETRIES - 1 ≤ ret
      · simp [acquireGo, h, hr]
      · simp only [acquireGo, h, if_neg hr]
        exact ih (ret + 1) (sl + 1) fs

theorem acquireGo_bounds (oracle : Nat → AttemptResult) (w : Bool) (p : String) :
    ∀ rem ret sl fs, ret + rem = MAX_RETRIES →
      (∀ a s, (acquireGo oracle w p rem ret sl fs).1 = AcqRes.ok a s →
        ret < a ∧ a ≤ MAX_RETRIES ∧ s = sl + (a - 1 - ret)) ∧
      (∀ e a s, (acquireGo oracle w p rem ret sl fs).1 = AcqRes.fail e a s →
        a = MAX_RETRIES ∧ sl ≤ s ∧ s ≤ sl + rem ∧
        (e = PyErr.exception lockFailMsg ∨ isLockWrapped e = true)) := by
  intro rem
  induction rem with
  | zero =>
    intro ret sl fs hinv
    constructor
    · intro a s h
      simp [acquireGo] at h
    · intro e a s h
      simp [acquireGo] at h
      obtain ⟨he, ha, hs⟩ := h
      subst he
      subst ha
      subst hs
      refine ⟨by omega, le_refl _, by omega, Or.inl rfl⟩
  | succ n ih =>
    intro ret sl fs hinv
    constructor
    · intro a s h
      cases ho : oracle ret with
      | success =>
        simp [acquireGo, ho] at h
        obtain ⟨ha, hs⟩ := h
        omega
      | contended m =>
        simp only [acquireGo, ho] at h
        have := (ih (ret + 1) (sl + 1) (if w = true then fsSet fs p FileData.blank else fs)
          (by omega)).1 a s h
        omega
      | oserror m =>
        by_cases hr : MAX_RETRIES - 1 ≤ ret
        · simp [acquireGo, ho, hr] at h
        · simp only [acquireGo, ho, if_neg hr] at h
          have := (ih (ret + 1) (sl + 1) fs (by omega)).1 a s h
          omega
    · intro e a s h
      cases ho : oracle ret with
      | success => simp [acquireGo, ho] at h
      | contended m =>
        simp only [acquireGo, ho] at h
        have := (ih (ret + 1) (sl + 1) (if w = true then fsSet fs p FileData.blank else fs)
          (by omega)).2 e a s h
        obtain ⟨h1, h2, h3, h4⟩ := this
        exact ⟨h1, by omega, by omega, h4⟩
      | oserror m =>
        by_cases hr : MAX_RETRIES - 1 ≤ ret
        · simp [acquireGo, ho, hr] at h
          obtain ⟨he, ha, hs⟩ := h
          subst he
          refine ⟨by omega, by omega, by omega, Or.inr ?_⟩
          simp [isLockWrapped]
        · simp only [acquireGo, ho, if_neg hr] at h
          have := (ih (ret + 1) (sl + 1) fs (by omega)).2 e a s h
          obtain ⟨h1, h2, h3, h4⟩ := this
          exact ⟨h1, by omega, by omega, h4⟩

theorem updateList_not_found (l : List Record) (aid : Option String) (r : Record)
    (h : ∀ t ∈ l, t.id ≠ aid) : updateList l aid r = l ++ [r] := by
  induction l with
  | nil => rfl
  | cons s rest ih =>
    have hs : s.id ≠ aid := h s (List.mem_cons_self s rest)
    simp only [updateList, if_neg hs]
    rw [ih (fun t ht => h t (List.mem_cons_of_mem s ht))]
    rfl

theorem updateList_found (l1 : List Record) (s : Record) (l2 : List Record)
    (aid : Option String) (r : Record)
    (h1 : ∀ t ∈ l1, t.id ≠ aid) (hs : s.id = aid) :
    updateList (l1 ++ s :: l2) aid r = l1 ++ r :: l2 := by
  induction l1 with
  | nil => simp [updateList, hs]
  | cons t ts ih =>
    have ht : t.id ≠ aid := h1 t (List.mem_cons_self t ts)
    simp only [List.cons_append, updateList, if_neg ht, List.append_eq]
    rw [ih (fun u hu => h1 u (List.mem_cons_of_mem t hu))]

theorem deleteList_mem_id (l : List Record) (aid : Option String) :
    ∀ t ∈ deleteList l aid, t.id ≠ aid := by
  intro t ht
  have := List.mem_filter.mp ht
  simpa using this.2

theorem deleteList_sublist (l : List Record) (aid : Option String) :
    List.Sublist (deleteList l aid) l :=
  List.filter_sublist l

theorem deleteList_mem_of_ne (l : List Record) (aid : Option String)
    (t : Record) (ht : t ∈ l) (hne : t.id ≠ aid) : t ∈ deleteList l aid := by
  exact List.mem_filter.mpr ⟨ht, by simpa using hne⟩

theorem deleteList_idem (l : List Record) (aid : Option String) :
    deleteList (deleteList l aid) aid = deleteList l aid := by
  apply List.filter_eq_self.mpr
  intro t ht
  simpa using deleteList_mem_id l aid t ht

theorem acquireFileLock_success (oracle : Nat → AttemptResult) (w : Bool) (p : String)
    (fs : Fs) (h0 : oracle 0 = AttemptResult.success) :
    acquireFileLock oracle w p fs =
      (AcqRes.ok 1 0, if w then fsSet fs p FileData.blank else fs) := by
  have h5 : MAX_RETRIES = Nat.succ 4 := rfl
  unfold acquireFileLock
  rw [h5]
  simp [acquireGo, h0]

theorem loadSettings_ok_json (env : Env) (fs : Fs) (p : String) (l : List Record)
    (h0 : env.oracle 0 = AttemptResult.success)
    (hp : fsGet fs p = some (FileData.json l)) :
    loadSettings env false fs p = ⟨Res.ok l, fs, 1, 1, 0⟩ := by
  simp only [loadSettings, Bool.false_eq_true, if_false, hp]
  rw [acquireFileLock_success _ _ _ _ h0]
  simp

theorem saveSettings_ok_benign (env : Env) (fs : Fs) (p : String) (X : List Record)
    (h0 : env.oracle 0 = AttemptResult.success)
    (hm : env.makedirsFails = false) (htw : env.tmpWriteFails = false)
    (hrep : env.replaceFails = false) (hd : dirname p ≠ "") :
    saveSettings env false fs p X =
      ⟨Res.ok (), fsSet (fsRemove (fsSet (fsSet fs (p ++ ".tmp") (FileData.json X)) p
        FileData.blank) (p ++ ".tmp")) p (FileData.json X), 1, 1, 0⟩ := by
  simp only [saveSettings, Bool.false_eq_true, if_false]
  rw [if_neg (by simp [hd, hm])]
  rw [if_neg (by simp [htw])]
  rw [acquireFileLock_success _ _ _ _ h0]
  simp [hrep]

theorem saveSettings_ok_content (env : Env) (fs : Fs) (p : String) (X : List Record)
    (h : (saveSettings env false fs p X).res = Res.ok ()) :
    fsGet (saveSettings env false fs p X).fs p = some (FileData.json X) := by
  by_cases hmb : dirname p = "" ∨ env.makedirsFails = true
  · simp [saveSettings, hmb] at h
  · by_cases htw : env.tmpWriteFails = true
    · simp [saveSettings, hmb, htw] at h
    · rcases hacq : acquireFileLock env.oracle true p
        (fsSet fs (p ++ ".tmp") (FileData.json X)) with ⟨r, fs2⟩
      cases r with
      | ok a s =>
        by_cases hrep : env.replaceFails = true
        · simp [saveSettings, hmb, htw, hacq, hrep] at h
        · simp [saveSettings, hmb, htw, hacq, hrep, fsGet_fsSet_self]
      | fail e a s => simp [saveSettings, hmb, htw, hacq] at h

theorem acquireFileLock_read_fs (oracle : Nat → AttemptResult) (p : String) (fs : Fs) :
    (acquireFileLock oracle false p fs).2 = fs :=
  acquireGo_read_fs oracle p MAX_RETRIES 0 0 fs

theorem acquireFileLock_write_ok_blank (oracle : Nat → AttemptResult) (p : String)
    (fs : Fs) (a s : Nat) (h : (acquireFileLock oracle true p fs).1 = AcqRes.ok a s) :
    fsGet (acquireFileLock oracle true p fs).2 p = some FileData.blank :=
  acquireGo_write_ok_blank oracle p MAX_RETRIES 0 0 fs a s h

theorem acquireFileLock_write_fsGet (oracle : Nat → AttemptResult) (p : String) (fs : Fs) :
    fsGet (acquireFileLock oracle true p fs).2 p = fsGet fs p ∨
    fsGet (acquireFileLock oracle true p fs).2 p = some FileData.blank :=
  acquireGo_write_fsGet oracle p MAX_RETRIES 0 0 fs

theorem acquireFileLock_write_fsGet_ne (oracle : Nat → AttemptResult) (p q : String)
    (hq : q ≠ p) (fs : Fs) :
    fsGet (acquireFileLock oracle true p fs).2 q = fsGet fs q :=
  acquireGo_write_fsGet_ne oracle p q hq MAX_RETRIES 0 0 fs

/-- C1: the claim says every public operation completes or fails, and that
`update_settings` and `delete_settings` run their load+mutate+save to
completion under the process mutex.  The code contradicts it: both
operations enter `with self._file_lock` and then call `load_settings`,
which re-enters the same non-re-entrant `threading.Lock` and blocks
forever.  Every call to `update_settings` or `delete_settings`, in every
environment and on every file system, deadlocks. -/
theorem c1_update_delete_deadlock (env : Env) (fs : Fs) (p : String)
    (aid : Option String) (newRec : Record) :
    (updateSettings env false fs p aid newRec).res = Res.deadlock ∧
    (deleteSettings env false fs p aid).res = Res.deadlock :=
  ⟨rfl, rfl⟩

/-- C6: for every path that does not exist on disk, `load_settings`
returns the empty list, raises no error, and makes no file-lock attempt. -/
theorem c6_load_missing_path (env : Env) (fs : Fs) (p : String)
    (h : fsGet fs p = none) :
    loadSettings env false fs p = ⟨Res.ok [], fs, 0, 0, 0⟩ := by
  simp [loadSettings, h]

/-- C6 witness at a concrete missing path. -/
theorem c6_witness :
    fsGet [] "missing.json" = none ∧
    loadSettings benignEnv false [] "missing.json" = ⟨Res.ok [], [], 0, 0, 0⟩ :=
  ⟨rfl, c6_load_missing_path benignEnv [] "missing.json" rfl⟩

/-- C7: for every existing file whose content `json.load` cannot parse
(malformed text, or an empty file), `load_settings` returns the empty
list and raises no error, releasing the file lock it took (one lock
taken, none held at return). -/
theorem c7_load_malformed (env : Env) (fs : Fs) (p : String) (a s : Nat)
    (h : fsGet fs p = some FileData.malformed ∨ fsGet fs p = some FileData.blank)
    (hacq : (acquireFileLock env.oracle false p fs).1 = AcqRes.ok a s) :
    loadSettings env false fs p = ⟨Res.ok [], fs, a, 1, 0⟩ := by
  rcases hp : acquireFileLock env.oracle false p fs with ⟨r, fs2⟩
  have hfs : fs2 = fs := by
    have h2 := acquireFileLock_read_fs env.oracle p fs
    rw [hp] at h2
    exact h2
  rw [hp] at hacq
  simp only at hacq
  subst hacq
  subst hfs
  rcases h with h | h
  · simp [loadSettings, h, hp]
  · simp [loadSettings, h, hp]

/-- C7 witness at a concrete malformed file. -/
theorem c7_witness :
    fsGet [("d/s.json", FileData.malformed)] "d/s.json" = some FileData.malformed ∧
    loadSettings benignEnv false [("d/s.json", FileData.malformed)] "d/s.json" =
      ⟨Res.ok [], [("d/s.json", FileData.malformed)], 1, 1, 0⟩ :=
  ⟨by decide,
   c7_load_malformed benignEnv [("d/s.json", FileData.malformed)] "d/s.json" 1 0
     (Or.inl (by decide)) (by decide)⟩

/-- C10: for every path with no directory component, `save_settings`
fails before writing any file (the file system is returned unchanged and
no lock attempt is made): `os.makedirs` receives the empty dirname and
raises, and the error that propagates is the `NameError` on the
not-yet-assigned `temp_path` from the cleanup branch, not an error
wrapping the original cause. -/
theorem c10_bare_path_name_error (env : Env) (fs : Fs) (X : List Record) (p : String)
    (h : dirname p = "") :
    saveSettings env false fs p X = ⟨Res.err (PyErr.nameError "temp_path"), fs, 0, 0, 0⟩ := by
  simp [saveSettings, h]

/-- C10 witness at a concrete bare filename. -/
theorem c10_witness :
    dirname "settings.json" = "" ∧
    saveSettings benignEnv false [] "settings.json" [recA] =
      ⟨Res.err (PyErr.nameError "temp_path"), [], 0, 0, 0⟩ :=
  ⟨by decide, c10_bare_path_name_error benignEnv [] [recA] "settings.json" (by decide)⟩

/-- C8 counterexample: when every attempt finds the lock held by another
process, the exhausted loop raises the bare exception of line 88 after 5
attempts; its message reports only the retry count and does not wrap the
underlying OS error, contradicting the claim that the final error wraps
it. -/
theorem c8_counterexample :
    (acquireFileLock contendedOracle false "d/s.json" []).1 =
      AcqRes.fail (PyErr.exception lockFailMsg) 5 5 ∧
    isLockWrapped (PyErr.exception lockFailMsg) = false := by
  decide

/-- C8 (amended): lock acquisition makes at most `MAX_RETRIES = 5`
attempts (success never takes more), any failure is raised only after
exactly 5 attempts with at most 5 delay sleeps, and the raised error is
either the bare retry-count exception (contention-exhaustion path, no
cause included) or the lock-failure error wrapping the OS cause
(non-contention path). -/
theorem c8_retry_bound (oracle : Nat → AttemptResult) (w : Bool) (p : String) (fs : Fs)
    (a s : Nat) (e : PyErr) :
    ((acquireFileLock oracle w p fs).1 = AcqRes.ok a s →
      1 ≤ a ∧ a ≤ MAX_RETRIES ∧ s < a) ∧
    ((acquireFileLock oracle w p fs).1 = AcqRes.fail e a s →
      a = MAX_RETRIES ∧ s ≤ MAX_RETRIES ∧
      (e = PyErr.exception lockFailMsg ∨ isLockWrapped e = true)) := by
  have h := acquireGo_bounds oracle w p MAX_RETRIES 0 0 fs (by omega)
  constructor
  · intro hok
    obtain ⟨h1, h2, h3⟩ := h.1 a s hok
    omega
  · intro hfail
    obtain ⟨h1, h2, h3, h4⟩ := h.2 e a s hfail
    exact ⟨h1, by omega, h4⟩

/-- C8 witness: a run in which every attempt raises a non-contention OS
error fails after exactly 5 attempts with the wrapping error shape. -/
theorem c8_witness :
    5 = MAX_RETRIES ∧ 4 ≤ MAX_RETRIES ∧
    (PyErr.wrapped lockFailMsg (PyErr.oserror "Permission denied") =
        PyErr.exception lockFailMsg ∨
      isLockWrapped (PyErr.wrapped lockFailMsg (PyErr.oserror "Permission denied")) = true) :=
  (c8_retry_bound oserrorOracle false "d/s.json" [] 5 4
    (PyErr.wrapped lockFailMsg (PyErr.oserror "Permission denied"))).2 (by decide)

/-- C2 counterexample: at a concrete store holding a record with id a,
`update_settings` with id a neither replaces the record nor saves: it
deadlocks (nested mutex re-acquisition) and the file system is unchanged,
still holding the original records. -/
theorem c2_counterexample :
    (updateSettings benignEnv false fsAB "d/s.json" (some "a") recA2).res = Res.deadlock ∧
    (updateSettings benignEnv false fsAB "d/s.json" (some "a") recA2).fs = fsAB ∧
    fsGet fsAB "d/s.json" = some (FileData.json [recA, recB]) := by
  decide

/-- C2 (amended): `update_settings` as written never completes (see C1);
the load+mutate+save it performs with the nested calls not re-acquiring
the mutex does satisfy the claim: the stored list becomes
`updateList l aid r`, which replaces the first record whose id matches
in place (same position, same length, all other records unchanged) and
appends the new record when no record matches, and the result is saved. -/
theorem c2_update_replaces_or_appends (env : Env) (fs : Fs) (p : String)
    (aid : Option String) (r : Record) (l : List Record)
    (h0 : env.oracle 0 = AttemptResult.success)
    (hm : env.makedirsFails = false) (htw : env.tmpWriteFails = false)
    (hrep : env.replaceFails = false) (hd : dirname p ≠ "")
    (hp : fsGet fs p = some (FileData.json l)) :
    (updateSettingsReentrant env fs p aid r).res = Res.ok () ∧
    fsGet (updateSettingsReentrant env fs p aid r).fs p =
      some (FileData.json (updateList l aid r)) ∧
    (∀ l1 s l2, l = l1 ++ s :: l2 → (∀ t ∈ l1, t.id ≠ aid) → s.id = aid →
      updateList l aid r = l1 ++ r :: l2 ∧ (updateList l aid r).length = l.length) ∧
    ((∀ t ∈ l, t.id ≠ aid) → updateList l aid r = l ++ [r]) := by
  have hload := loadSettings_ok_json env fs p l h0 hp
  have hsave := saveSettings_ok_benign env fs p (updateList l aid r) h0 hm htw hrep hd
  refine ⟨?_, ?_, ?_, ?_⟩
  · simp [updateSettingsReentrant, updateSettingsBody, hload, hsave]
  · simp [updateSettingsReentrant, updateSettingsBody, hload, hsave, fsGet_fsSet_self]
  · intro l1 s l2 hl h1 hs
    subst hl
    refine ⟨updateList_found l1 s l2 aid r h1 hs, ?_⟩
    rw [updateList_found l1 s l2 aid r h1 hs]
    simp
  · intro h
    exact updateList_not_found l aid r h

/-- C2 witness at a concrete store: updating id a replaces the first
record in place and the result is saved. -/
theorem c2_witness :
    fsGet fsAB "d/s.json" = some (FileData.json [recA, recB]) ∧
    (updateSettingsReentrant benignEnv fsAB "d/s.json" (some "a") recA2).res = Res.ok () ∧
    fsGet (updateSettingsReentrant benignEnv fsAB "d/s.json" (some "a") recA2).fs "d/s.json" =
      some (FileData.json (updateList [recA, recB] (some "a") recA2)) :=
  ⟨by decide,
   (c2_update_replaces_or_appends benignEnv fsAB "d/s.json" (some "a") recA2 [recA, recB]
     rfl rfl rfl rfl (by decide) (by decide)).1,
   (c2_update_replaces_or_appends benignEnv fsAB "d/s.json" (some "a") recA2 [recA, recB]
     rfl rfl rfl rfl (by decide) (by decide)).2.1⟩

/-- C3 counterexample: at a concrete store holding a record with id b,
`delete_settings` with id b removes nothing: it deadlocks (nested mutex
re-acquisition) and the file system is unchanged. -/
theorem c3_counterexample :
    (deleteSettings benignEnv false fsAB "d/s.json" (some "b")).res = Res.deadlock ∧
    (deleteSettings benignEnv false fsAB "d/s.json" (some "b")).fs = fsAB := by
  decide

/-- The benign-environment run of the re-entrant delete body: it
returns normally and saves the filtered list.  Shared helper for C3. -/
theorem deleteSettingsReentrant_saves (env : Env) (fs : Fs) (p : String)
    (aid : Option String) (l : List Record)
    (h0 : env.oracle 0 = AttemptResult.success)
    (hm : env.makedirsFails = false) (htw : env.tmpWriteFails = false)
    (hrep : env.replaceFails = false) (hd : dirname p ≠ "")
    (hp : fsGet fs p = some (FileData.json l)) :
    (deleteSettingsReentrant env fs p aid).res = Res.ok () ∧
    fsGet (deleteSettingsReentrant env fs p aid).fs p =
      some (FileData.json (deleteList l aid)) := by
  have hload := loadSettings_ok_json env fs p l h0 hp
  have hsave := saveSettings_ok_benign env fs p (deleteList l aid) h0 hm htw hrep hd
  constructor
  · simp [deleteSettingsReentrant, deleteSettingsBody, hload, hsave]
  · simp [deleteSettingsReentrant, deleteSettingsBody, hload, hsave, fsGet_fsSet_self]

/-- C3 (amended): `delete_settings` as written never completes (see C1);
the load+filter+save it performs with the nested calls not re-acquiring
the mutex does satisfy the claim: the stored list becomes
`deleteList l aid`, which removes every record whose id equals the given
id, keeps all other records in their original relative order (a sublist),
raises no error when no record matches, and a second run on the result
leaves the stored list unchanged (idempotent). -/
theorem c3_delete_removes_all (env : Env) (fs : Fs) (p : String)
    (aid : Option String) (l : List Record)
    (h0 : env.oracle 0 = AttemptResult.success)
    (hm : env.makedirsFails = false) (htw : env.tmpWriteFails = false)
    (hrep : env.replaceFails = false) (hd : dirname p ≠ "")
    (hp : fsGet fs p = some (FileData.json l)) :
    (deleteSettingsReentrant env fs p aid).res = Res.ok () ∧
    fsGet (deleteSettingsReentrant env fs p aid).fs p =
      some (FileData.json (deleteList l aid)) ∧
    (∀ t ∈ deleteList l aid, t.id ≠ aid) ∧
    List.Sublist (deleteList l aid) l ∧
    (∀ t ∈ l, t.id ≠ aid → t ∈ deleteList l aid) ∧
    deleteList (deleteList l aid) aid = deleteList l aid ∧
    fsGet (deleteSettingsReentrant env (deleteSettingsReentrant env fs p aid).fs p aid).fs p =
      some (FileData.json (deleteList l aid)) := by
  obtain ⟨hres, hget⟩ := deleteSettingsReentrant_saves env fs p aid l h0 hm htw hrep hd hp
  refine ⟨hres, hget, deleteList_mem_id l aid, deleteList_sublist l aid,
    deleteList_mem_of_ne l aid, deleteList_idem l aid, ?_⟩
  have hsecond := (deleteSettingsReentrant_saves env (deleteSettingsReentrant env fs p aid).fs
    p aid (deleteList l aid) h0 hm htw hrep hd hget).2
  rw [deleteList_idem] at hsecond
  exact hsecond

/-- C3 witness at a concrete store: deleting id a removes exactly the
record with id a, and a second delete is a no-op on the stored list. -/
theorem c3_witness :
    fsGet fsAB "d/s.json" = some (FileData.json [recA, recB]) ∧
    (deleteSettingsReentrant benignEnv fsAB "d/s.json" (some "a")).res = Res.ok () ∧
    fsGet (deleteSettingsReentrant benignEnv fsAB "d/s.json" (some "a")).fs "d/s.json" =
      some (FileData.json (deleteList [recA, recB] (some "a"))) ∧
    fsGet (deleteSettingsReentrant benignEnv
        (deleteSettingsReentrant benignEnv fsAB "d/s.json" (some "a")).fs "d/s.json"
        (some "a")).fs "d/s.json" =
      some (FileData.json (deleteList [recA, recB] (some "a"))) :=
  ⟨by decide,
   (c3_delete_removes_all benignEnv fsAB "d/s.json" (some "a") [recA, recB]
     rfl rfl rfl rfl (by decide) (by decide)).1,
   (c3_delete_removes_all benignEnv fsAB "d/s.json" (some "a") [recA, recB]
     rfl rfl rfl rfl (by decide) (by decide)).2.1,
   (c3_delete_removes_all benignEnv fsAB "d/s.json" (some "a") [recA, recB]
     rfl rfl rfl rfl (by decide) (by decide)).2.2.2.2.2.2⟩

/-- C9 counterexample: the claim describes what `delete_settings` and
`update_settings` do with records lacking an id key, but neither
operation ever completes: at a concrete store holding a record without
an id key, `delete_settings` with id `None` deadlocks and the stored
file is unchanged (the id-less record is not removed). -/
theorem c9_counterexample :
    (deleteSettings benignEnv false fsMixed "d/m.json" none).res = Res.deadlock ∧
    (deleteSettings benignEnv false fsMixed "d/m.json" none).fs = fsMixed := by
  decide

/-- C9 (amended): in the record-matching logic the operations apply
between load and save (`setting.get` of the id key), a record lacking an
id key is matched as if its id were `None`: deleting a non-`None` id
retains every id-less record, deleting `None` removes every id-less
record, and updating with `None` replaces the first id-less record in
place rather than appending. -/
theorem c9_missing_id_matches_none (l : List Record) (x : String) (r : Record) :
    (∀ t ∈ l, t.id = none → t ∈ deleteList l (some x)) ∧
    (∀ t ∈ deleteList l none, t.id ≠ none) ∧
    (∀ l1 s l2, l = l1 ++ s :: l2 → (∀ t ∈ l1, t.id ≠ none) → s.id = none →
      updateList l none r = l1 ++ r :: l2) := by
  refine ⟨?_, ?_, ?_⟩
  · intro t ht hid
    exact deleteList_mem_of_ne l (some x) t ht (by simp [hid])
  · intro t ht
    exact deleteList_mem_id l none t ht
  · intro l1 s l2 hl h1 hs
    subst hl
    exact updateList_found l1 s l2 none r h1 hs

/-- C9 witness at concrete records: the id-less record survives a delete
of id b, and an update with id `None` replaces it in place instead of
appending. -/
theorem c9_witness :
    recNoId ∈ [recNoId, recB] ∧ recNoId.id = none ∧
    recNoId ∈ deleteList [recNoId, recB] (some "b") ∧
    updateList [recNoId, recB] none recC = [] ++ recC :: [recB] :=
  ⟨by decide, by decide,
   (c9_missing_id_matches_none [recNoId, recB] "b" recC).1 recNoId (by decide) (by decide),
   (c9_missing_id_matches_none [recNoId, recB] "b" recC).2.2 [] recNoId [recB]
     rfl (by decide) (by decide)⟩

/-- C4: round-trip.  After a successful `save_settings(p, X)`, a
subsequent `load_settings(p)` whose lock acquisition succeeds returns
exactly X. -/
theorem c4_save_load_roundtrip (env env2 : Env) (fs : Fs) (p : String) (X : List Record)
    (a s : Nat)
    (hsave : (saveSettings env false fs p X).res = Res.ok ())
    (hacq : (acquireFileLock env2.oracle false p (saveSettings env false fs p X).fs).1 =
      AcqRes.ok a s) :
    (loadSettings env2 false (saveSettings env false fs p X).fs p).res = Res.ok X := by
  have hc := saveSettings_ok_content env fs p X hsave
  rcases hp : acquireFileLock env2.oracle false p (saveSettings env false fs p X).fs
    with ⟨r, fs2⟩
  rw [hp] at hacq
  simp only at hacq
  subst hacq
  simp [loadSettings, hc, hp]

/-- C4 witness at a concrete save and reload. -/
theorem c4_witness :
    (saveSettings benignEnv false [] "d/s.json" [recA]).res = Res.ok () ∧
    (loadSettings benignEnv false (saveSettings benignEnv false [] "d/s.json" [recA]).fs
      "d/s.json").res = Res.ok [recA] :=
  ⟨by decide,
   c4_save_load_roundtrip benignEnv benignEnv [] "d/s.json" [recA] 1 0
     (by decide) (by decide)⟩

/-- C5 counterexample: two concrete failing saves refute the claim as
stated.  First, with the previous content a one-record array and
`os.replace` failing, the target file ends up truncated to an empty file
by the write-mode open of the locking step: neither the previous content
nor the complete new content.  Second, a save to a bare filename fails
with the `NameError` of the cleanup branch, which is not an I/O error
wrapping the underlying cause. -/
theorem c5_counterexample :
    (saveSettings envReplaceFail false fsAB "d/s.json" [recA2]).res =
      Res.err (PyErr.wrapped saveFailMsg (PyErr.oserror "Invalid cross-device link")) ∧
    fsGet (saveSettings envReplaceFail false fsAB "d/s.json" [recA2]).fs "d/s.json" =
      some FileData.blank ∧
    some FileData.blank ≠ some (FileData.json [recA, recB]) ∧
    some FileData.blank ≠ some (FileData.json [recA2]) ∧
    (saveSettings benignEnv false [] "plain.json" [recA]).res =
      Res.err (PyErr.nameError "temp_path") ∧
    isSaveWrapped (PyErr.nameError "temp_path") = false := by
  decide

/-- C5 (amended): when `save_settings` fails, no file lock stays held;
if the failure is at the directory-creation step the propagated error is
the `NameError` on the unassigned `temp_path` and the file system is
untouched, and otherwise the temp file is removed and the raised error
wraps the cause; the target file never holds partially-written new
content - it holds either its previous content or, because the locking
step opens the target in write mode, an empty truncation of it. -/
theorem c5_save_failure_cleanup (env : Env) (fs : Fs) (p : String) (X : List Record)
    (e : PyErr) (h : (saveSettings env false fs p X).res = Res.err e) :
    (saveSettings env false fs p X).locksHeld = 0 ∧
    ((e = PyErr.nameError "temp_path" ∧ (saveSettings env false fs p X).fs = fs) ∨
     (fsGet (saveSettings env false fs p X).fs (p ++ ".tmp") = none ∧
      isSaveWrapped e = true)) ∧
    (fsGet (saveSettings env false fs p X).fs p = fsGet fs p ∨
     fsGet (saveSettings env false fs p X).fs p = some FileData.blank) := by
  have hne : p ≠ p ++ ".tmp" := string_ne_append_tmp p
  by_cases hmb : dirname p = "" ∨ env.makedirsFails = true
  · simp only [saveSettings, Bool.false_eq_true, if_false, if_pos hmb] at h ⊢
    injection h with h2
    refine ⟨trivial, Or.inl ⟨h2.symm, trivial⟩, Or.inl trivial⟩
  · by_cases htw : env.tmpWriteFails = true
    · simp only [saveSettings, Bool.false_eq_true, if_false, if_neg hmb, if_pos htw] at h ⊢
      injection h with h2
      refine ⟨trivial, Or.inr ⟨fsGet_fsRemove_self _ _, ?_⟩, Or.inl ?_⟩
      · rw [← h2]
        simp [isSaveWrapped]
      · rw [fsGet_fsRemove_ne _ _ _ hne, fsGet_fsSet_ne _ _ _ _ hne]
    · rcases hacq : acquireFileLock env.oracle true p
        (fsSet fs (p ++ ".tmp") (FileData.json X)) with ⟨r, fs2⟩
      cases r with
      | ok a s =>
        by_cases hrep : env.replaceFails = true
        · simp only [saveSettings, Bool.false_eq_true, if_false, if_neg hmb, if_neg htw,
            hacq, if_pos hrep] at h ⊢
          injection h with h2
          have hblank : fsGet fs2 p = some FileData.blank := by
            have hb := acquireFileLock_write_ok_blank env.oracle p
              (fsSet fs (p ++ ".tmp") (FileData.json X)) a s (by rw [hacq])
            rw [hacq] at hb
            exact hb
          refine ⟨trivial, Or.inr ⟨fsGet_fsRemove_self _ _, ?_⟩, Or.inr ?_⟩
          · rw [← h2]
            simp [isSaveWrapped]
          · rw [fsGet_fsRemove_ne _ _ _ hne]
            exact hblank
        · simp only [saveSettings, Bool.false_eq_true, if_false, if_neg hmb, if_neg htw,
            hacq, if_neg hrep] at h
          exact Res.noConfusion h
      | fail e2 a s =>
        simp only [saveSettings, Bool.false_eq_true, if_false, if_neg hmb, if_neg htw,
          hacq] at h ⊢
        injection h with h2
        have hw : fsGet fs2 p = fsGet (fsSet fs (p ++ ".tmp") (FileData.json X)) p ∨
            fsGet fs2 p = some FileData.blank := by
          have hg := acquireFileLock_write_fsGet env.oracle p
            (fsSet fs (p ++ ".tmp") (FileData.json X))
          rw [hacq] at hg
          exact hg
        refine ⟨trivial, Or.inr ⟨fsGet_fsRemove_self _ _, ?_⟩, ?_⟩
        · rw [← h2]
          simp [isSaveWrapped]
        · rcases hw with hw | hw
          · left
            rw [fsGet_fsRemove_ne _ _ _ hne, hw, fsGet_fsSet_ne _ _ _ _ hne]
          · right
            rw [fsGet_fsRemove_ne _ _ _ hne]
            exact hw

/-- C5 witness at a concrete failing save (temp-file write failure). -/
theorem c5_witness :
    (saveSettings envTmpFail false fsAB "d/s.json" [recA2]).res =
      Res.err (PyErr.wrapped saveFailMsg (PyErr.oserror "No space left on device")) ∧
    (saveSettings envTmpFail false fsAB "d/s.json" [recA2]).locksHeld = 0 ∧
    (fsGet (saveSettings envTmpFail false fsAB "d/s.json" [recA2]).fs "d/s.json" =
       fsGet fsAB "d/s.json" ∨
     fsGet (saveSettings envTmpFail false fsAB "d/s.json" [recA2]).fs "d/s.json" =
       some FileData.blank) :=
  ⟨by decide,
   (c5_save_failure_cleanup envTmpFail fsAB "d/s.json" [recA2]
     (PyErr.wrapped saveFailMsg (PyErr.oserror "No space left on device")) (by decide)).1,
   (c5_save_failure_cleanup envTmpFail fsAB "d/s.json" [recA2]
     (PyErr.wrapped saveFailMsg (PyErr.oserror "No space left on device")) (by decide)).2.2⟩
